import Mathlib

/-!
Shallow embedding of the query parsing and playlist-selection engine of
`smj7.py` (The Simple Media Jukebox, version 7), covering:

* the clause-classification loop and SQL construction of `search_media`
  (smj7.py lines 351-401), and
* the playlist directive dispatch of `playlist_handler`
  (smj7.py lines 405-430).

Python strings become Lean `String`s, Python lists become Lean `List`s.
`str.join`, `str.strip`, `str.split`, single-character `str.startswith`,
`str.isdigit`, list repetition (`lst * 3`) and slicing are translated by
small helper functions below, each documented with the Python construct
it stands for.  The generated SQL statement is embedded twice: once as
the literal statement text plus bound-parameter list exactly as the code
builds them, and once as a structured AND-of-OR-groups predicate; a
fidelity theorem proves the structured form renders to exactly the text
and parameters the code produces, so evaluating the structured form is
evaluating the code's query.
-/

/-! ## String helpers translated from Python constructs -/

/-- Python `sep.join(lst)`: concatenate the strings of `lst` separated by
`sep` (empty string for the empty list). -/
def pyJoin (sep : String) : List String → String
  | [] => ""
  | [x] => x
  | x :: y :: xs => x ++ sep ++ pyJoin sep (y :: xs)

/-- Split a character list at every occurrence of `c`; the result always
has one more segment than there are occurrences of `c`. -/
def splitChars (c : Char) : List Char → List (List Char)
  | [] => [[]]
  | a :: as =>
    match splitChars c as with
    | [] => [[]]
    | g :: gs => if a == c then [] :: g :: gs else (a :: g) :: gs

/-- Python `s.split(c)` for a single-character separator: split at every
occurrence of `c`; the empty string yields `[""]`. -/
def pySplit (c : Char) (s : String) : List String :=
  (splitChars c s.data).map (fun l => String.mk l)

/-- Whitespace-trimming of a character list from both ends. -/
def trimChars (l : List Char) : List Char :=
  ((l.dropWhile Char.isWhitespace).reverse.dropWhile Char.isWhitespace).reverse

/-- Python `s.strip()`: remove whitespace from both ends. -/
def pyStrip (s : String) : String := ⟨trimChars s.data⟩

/-- Python `s.lower()`: lower-case every character. -/
def pyLower (s : String) : String := ⟨s.data.map Char.toLower⟩

/-- Python `s[n:]`: drop the first `n` characters. -/
def pyDrop (s : String) (n : Nat) : String := ⟨s.data.drop n⟩

/-- Python `w.startswith(c)` for a single-character pattern `c`: true iff
`w` is nonempty and its first character is `c`. -/
def startsChar (w : String) (c : Char) : Bool :=
  match w.data with
  | [] => false
  | a :: _ => a == c

/-- Python `s.isdigit()`: true iff `s` is nonempty and every character is
a digit. -/
def isdigit (s : String) : Bool :=
  !s.data.isEmpty && s.data.all Char.isDigit

/-- Python `int(s)` on an all-digits string: base-10 value. -/
def parseNat (s : String) : Nat :=
  s.data.foldl (fun n c => 10 * n + (c.toNat - 48)) 0

/-- Character-list version of "p occurs at the start of l". -/
def leadMatch : List Char → List Char → Bool
  | [], _ => true
  | _ :: _, [] => false
  | a :: ps, b :: ls => (a == b) && leadMatch ps ls

/-- Character-list version of "p occurs somewhere inside l". -/
def subMatch (p : List Char) : List Char → Bool
  | [] => leadMatch p []
  | b :: ls => leadMatch p (b :: ls) || subMatch p ls

/-- SQLite `v LIKE '%pat%'` on non-NULL text: case-insensitive substring
containment (SQLite LIKE is case-insensitive on ASCII by default, and
`search_media` wraps every bound parameter in `%...%`). -/
def likeMatch (v pat : String) : Bool :=
  subMatch (pyLower pat).data (pyLower v).data

/-! ## Data model -/

/-- One row of the `media` table, in schema column order
(`create table media(title text, artist text, album text, tracknumber int,
discnumber int, genre text, path text unique)`).  The indexer always
stores non-NULL strings (it substitutes defaults such as
`'unknown artist'`), so text columns are plain `String`s. -/
structure Record where
  title : String
  artist : String
  album : String
  tracknumber : Int
  discnumber : Int
  genre : String
  path : String
deriving DecidableEq

/-- The four concrete searchable columns named in the generated SQL. -/
inductive Col
  | genre
  | artist
  | album
  | title
deriving DecidableEq

/-- Column projection of a record. -/
def getCol (r : Record) : Col → String
  | .genre => r.genre
  | .artist => r.artist
  | .album => r.album
  | .title => r.title

/-- The five category lists built by `search_media`'s classification loop
(`genre_params`, `artist_params`, `album_params`, `title_params`,
`multi_params`). -/
structure Params where
  genre_params : List String
  artist_params : List String
  album_params : List String
  title_params : List String
  multi_params : List String
deriving DecidableEq

/-- The empty initial state of the five category lists. -/
def emptyParams : Params := ⟨[], [], [], [], []⟩

/-! ## Tokenizer: the classification loop of `search_media` -/

/-- Loop body of `for word in input_string.split(','):` in `search_media`:
strip the segment, dispatch on the leading sigil (`!` genre, `@` artist,
`#` album, `$` title, otherwise multi), append the sigil-stripped text to
that category's list. -/
def classify (p : Params) (word0 : String) : Params :=
  let word := pyStrip word0
  if startsChar word '!' then
    { p with genre_params := p.genre_params ++ [pyDrop word 1] }
  else if startsChar word '@' then
    { p with artist_params := p.artist_params ++ [pyDrop word 1] }
  else if startsChar word '#' then
    { p with album_params := p.album_params ++ [pyDrop word 1] }
  else if startsChar word '$' then
    { p with title_params := p.title_params ++ [pyDrop word 1] }
  else
    { p with multi_params := p.multi_params ++ [word] }

/-- The whole classification loop: split the raw query on `,` and fold the
loop body over the segments. -/
def tokenize (input_string : String) : Params :=
  (pySplit ',' input_string).foldl classify emptyParams

/-! ## SQL text and bound parameters, exactly as `search_media` builds them -/

/-- `pre_sql` in `search_media`. -/
def pre_sql : String := "select * from media where "

/-- `post_sql` in `search_media`. -/
def post_sql : String := " order by artist, album, discnumber, tracknumber"

/-- Python `'(' + ' or '.join([item] * n) + ')'`. -/
def sqlBlock (item : String) (n : Nat) : String :=
  "(" ++ pyJoin " or " (List.replicate n item) ++ ")"

/-- `genre_sql = '(' + ' or '.join(['genre like ?'] * len(genre_params)) + ')'`. -/
def genre_sql (p : Params) : String := sqlBlock "genre like ?" p.genre_params.length

/-- `artist_sql`, as `genre_sql` but over `artist_params`. -/
def artist_sql (p : Params) : String := sqlBlock "artist like ?" p.artist_params.length

/-- `album_sql`, as `genre_sql` but over `album_params`. -/
def album_sql (p : Params) : String := sqlBlock "album like ?" p.album_params.length

/-- `title_sql`, as `genre_sql` but over `title_params`. -/
def title_sql (p : Params) : String := sqlBlock "title like ?" p.title_params.length

/-- `multi_sql = '(' + ' or '.join(['artist like ? or album like ? or title like ?'] * len(multi_params)) + ')'`. -/
def multi_sql (p : Params) : String :=
  sqlBlock "artist like ? or album like ? or title like ?" p.multi_params.length

/-- The full statement text:
`sql = pre_sql + ' and '.join(filter(lambda x: len(x) > 2, [genre_sql, artist_sql, album_sql, title_sql, multi_sql])) + post_sql`.
A block of length 2 is exactly the empty pair `()` of a category with no
clauses, so the filter drops empty OR-groups from the AND chain. -/
def search_sql (p : Params) : String :=
  pre_sql ++
    pyJoin " and "
      (([genre_sql p, artist_sql p, album_sql p, title_sql p, multi_sql p]).filter
        (fun x => decide (2 < x.length))) ++
    post_sql

/-- The bound-parameter list:
`sql_params = ['%' + param + '%' for param in genre_params + artist_params + album_params + title_params + multi_params * 3]`.
Note `multi_params * 3` repeats the whole list three times. -/
def sql_params (p : Params) : List String :=
  (p.genre_params ++ p.artist_params ++ p.album_params ++ p.title_params ++
      (p.multi_params ++ p.multi_params ++ p.multi_params)).map
    (fun param => "%" ++ param ++ "%")

/-! ## Structured form of the generated WHERE clause -/

/-- One comparison `col like ?` together with the parameter bound to its
placeholder (stored unwrapped; evaluation and rendering add the `%...%`). -/
structure Leaf where
  col : Col
  pat : String
deriving DecidableEq

/-- An OR-group: one parenthesized block of the generated SQL. -/
abbrev OrGroup := List Leaf

/-- The AND chain of OR-groups making up the WHERE clause. -/
abbrev Pred := List OrGroup

/-- OR-group of a single concrete column: the block `(col like ? or ... )`
with the category's parameters bound in order. -/
def concreteGroup (c : Col) (ts : List String) : OrGroup :=
  ts.map (fun t => ⟨c, t⟩)

/-- The column cycle of one `artist like ? or album like ? or title like ?`
unit of the multi block. -/
def multiCols : List Col := [Col.artist, Col.album, Col.title]

/-- The multi OR-group with its placeholder bindings: the block text
repeats the three-column unit `len(multi_params)` times (giving the column
sequence artist, album, title, artist, album, title, ...), and the
parameter list supplies `multi_params * 3`, so placeholder `i` binds
column `multiCols[i % 3]` to text `multi_params[i % n]`. -/
def multiGroupL (ts : List String) : OrGroup :=
  ((List.replicate ts.length multiCols).flatten.zip (ts ++ ts ++ ts)).map
    (fun ct => ⟨ct.1, ct.2⟩)

/-- The structured WHERE clause of `search_media`: the five category
blocks in the code's fixed order, empty blocks dropped (the counterpart of
`filter(lambda x: len(x) > 2, ...)`). -/
def compiledPred (p : Params) : Pred :=
  ([concreteGroup Col.genre p.genre_params,
    concreteGroup Col.artist p.artist_params,
    concreteGroup Col.album p.album_params,
    concreteGroup Col.title p.title_params,
    multiGroupL p.multi_params]).filter (fun g => !g.isEmpty)

/-- Evaluation of one comparison on a row. -/
def evalLeaf (r : Record) (l : Leaf) : Bool :=
  likeMatch (getCol r l.col) l.pat

/-- Evaluation of an OR-group on a row. -/
def evalGroup (r : Record) (g : OrGroup) : Bool :=
  g.any (evalLeaf r)

/-- Evaluation of the AND chain on a row. -/
def evalPred (r : Record) (P : Pred) : Bool :=
  P.all (evalGroup r)

/-- The row filter `search_media input_string` executes. -/
def search_pred (input_string : String) (r : Record) : Bool :=
  evalPred r (compiledPred (tokenize input_string))

/-! ## Rendering the structured form back to the code's SQL text -/

/-- SQL name of a column. -/
def colName : Col → String
  | .genre => "genre"
  | .artist => "artist"
  | .album => "album"
  | .title => "title"

/-- Statement text of one comparison. -/
def renderLeaf (l : Leaf) : String := colName l.col ++ " like ?"

/-- Statement text of one OR-group. -/
def renderGroup (g : OrGroup) : String :=
  "(" ++ pyJoin " or " (g.map renderLeaf) ++ ")"

/-- Statement text of the AND chain. -/
def renderPred (P : Pred) : String :=
  pyJoin " and " (P.map renderGroup)

/-- The bound parameters of a structured WHERE clause, read left to right,
wrapped in `%...%` as the code wraps them. -/
def predParams (P : Pred) : List String :=
  P.flatten.map (fun l => "%" ++ l.pat ++ "%")

/-! ## Spec-side definitions, used to compare the code against the
specification's wording -/

/-- The clause fields of the specification's data model:
`field ∈ {genre, artist, album, title, any}`. -/
inductive QField
  | genre
  | artist
  | album
  | title
  | anyF
deriving DecidableEq

/-- A clause of the specification's data model: a (field, text) pair. -/
abbrev Clause := QField × String

/-- Distribution of one already-classified clause into the five category
lists, exactly as one iteration of `search_media`'s loop appends the
clause text to its category. -/
def addClause (p : Params) (c : Clause) : Params :=
  match c.1 with
  | .genre => { p with genre_params := p.genre_params ++ [c.2] }
  | .artist => { p with artist_params := p.artist_params ++ [c.2] }
  | .album => { p with album_params := p.album_params ++ [c.2] }
  | .title => { p with title_params := p.title_params ++ [c.2] }
  | .anyF => { p with multi_params := p.multi_params ++ [c.2] }

/-- The grouping step of `search_media` on an explicit clause list: fold
the clause distribution over the list. -/
def toParams (cs : List Clause) : Params := cs.foldl addClause emptyParams

/-- Texts of the clauses with a given field, in clause-list order. -/
def fieldTexts (f : QField) (cs : List Clause) : List String :=
  (cs.filter (fun c => decide (c.1 = f))).map (fun c => c.2)

/-- Classification of one raw segment as a (field, text) clause, matching
the sigil dispatch of `search_media`'s loop. -/
def classifyWord (word0 : String) : Clause :=
  let word := pyStrip word0
  if startsChar word '!' then (QField.genre, pyDrop word 1)
  else if startsChar word '@' then (QField.artist, pyDrop word 1)
  else if startsChar word '#' then (QField.album, pyDrop word 1)
  else if startsChar word '$' then (QField.title, pyDrop word 1)
  else (QField.anyF, word)

/-- The clause list of a raw query, in order of appearance. -/
def clausesOf (s : String) : List Clause :=
  (pySplit ',' s).map classifyWord

/-- Trimmed segments of a raw query, in order. -/
def segsOf (s : String) : List String :=
  (pySplit ',' s).map pyStrip

/-- Texts of the segments led by a given sigil, sigil stripped, in order. -/
def sigilTexts (c : Char) (segs : List String) : List String :=
  (segs.filter (fun w => startsChar w c)).map (fun w => pyDrop w 1)

/-- True iff a trimmed segment carries no sigil. -/
def noSigil (w : String) : Bool :=
  !(startsChar w '!') && !(startsChar w '@') && !(startsChar w '#') &&
    !(startsChar w '$')

/-- Tokenizer written from the specification's words: split on `,`, trim
each segment, route each segment by its leading sigil with the sigil
stripped, keeping each category in order of appearance. -/
def specTokenize (s : String) : Params :=
  ⟨sigilTexts '!' (segsOf s),
   sigilTexts '@' (segsOf s),
   sigilTexts '#' (segsOf s),
   sigilTexts '$' (segsOf s),
   (segsOf s).filter noSigil⟩

/-- The any-group of the specification's words: each text `T` contributes
the leaf triple `artist~T OR album~T OR title~T`, and the per-clause
triples are ORed together in one group. -/
def specMultiGroup (ts : List String) : OrGroup :=
  (ts.map (fun t => [⟨Col.artist, t⟩, ⟨Col.album, t⟩, ⟨Col.title, t⟩])).flatten

/-- QField keys of a clause list in first-seen order. -/
def firstSeenKeys (cs : List Clause) : List QField :=
  cs.foldl (fun acc c => if c.1 ∈ acc then acc else acc ++ [c.1]) []

/-- The OR-group the specification assigns to a field key. -/
def specGroupFor (cs : List Clause) : QField → OrGroup
  | .genre => concreteGroup Col.genre (fieldTexts QField.genre cs)
  | .artist => concreteGroup Col.artist (fieldTexts QField.artist cs)
  | .album => concreteGroup Col.album (fieldTexts QField.album cs)
  | .title => concreteGroup Col.title (fieldTexts QField.title cs)
  | .anyF => specMultiGroup (fieldTexts QField.anyF cs)

/-- Clause compiler written from the specification's words: one OR-group
per distinct field, in first-seen order, conjoined with AND. -/
def specCompileFirstSeen (cs : List Clause) : Pred :=
  (firstSeenKeys cs).map (specGroupFor cs)

/-! ## The playlist selector: `playlist_handler` -/

/-- Model of Python `random.choice(seq)` with the random draw exposed as
an index `k`: some element of the list when it is nonempty, and `none`
(the library raises `IndexError`) on the empty list. -/
def random_choice (k : Nat) (l : List α) : Option α :=
  l[k % l.length]?

/-- Model of Python `random.shuffle(x)` with the random draws exposed as
a list `js`: repeatedly pick the position `j % length` dictated by the
next draw, move that element to the front of the remainder.  Every
sequence of draws yields a permutation of the input, and every
permutation is reachable, which is the library's contract (`shuffle the
sequence x in place`). -/
def shuffleDraws : List Nat → List α → List α
  | [], l => l
  | _ :: _, [] => []
  | j :: js, a :: l =>
    (a :: l).get ⟨j % (a :: l).length, Nat.mod_lt _ (Nat.succ_pos _)⟩ ::
      shuffleDraws js ((a :: l).eraseIdx (j % (a :: l).length))

/-- Observable outcome of one `playlist_handler` call: the list passed to
`play` (empty when `play` is never called), the lines printed, the final
contents of the caller's `media_entries` list (Python lists are passed by
reference and `random.shuffle` mutates in place), and whether an uncaught
exception escaped the call. -/
structure HandlerOut where
  played : List Record
  messages : List String
  entriesAfter : List Record
  fatal : Bool
deriving DecidableEq

/-- `playlist_handler(input_string, media_entries)` from smj7.py, with
the random draws of the `r` and `s` branches exposed as `k` and `js`:
strip the input; an all-digits token plays the slice from that 1-based
position when in range and otherwise prints the out-of-range prompt; a
token starting with `a` plays the whole list; `r` plays one random
choice (raising `IndexError` on an empty list); `s` shuffles the list in
place and plays it; the final branch is the bare string expression
`'Not a valid playlist command, try again.'`, which prints nothing. -/
def playlist_handler (k : Nat) (js : List Nat) (input_string : String)
    (media_entries : List Record) : HandlerOut :=
  if isdigit (pyStrip input_string) then
    if 0 < parseNat (pyStrip input_string) ∧
        parseNat (pyStrip input_string) ≤ media_entries.length then
      ⟨media_entries.drop (parseNat (pyStrip input_string) - 1), [], media_entries, false⟩
    else
      ⟨[], ["Enter value from 1 to " ++ toString media_entries.length ++ ", try again."],
        media_entries, false⟩
  else if startsChar (pyStrip input_string) 'a' then
    ⟨media_entries, [], media_entries, false⟩
  else if startsChar (pyStrip input_string) 'r' then
    match random_choice k media_entries with
    | some x => ⟨[x], [], media_entries, false⟩
    | none => ⟨[], [], media_entries, true⟩
  else if startsChar (pyStrip input_string) 's' then
    ⟨shuffleDraws js media_entries, [], shuffleDraws js media_entries, false⟩
  else
    ⟨[], [], media_entries, false⟩

/-- True iff a directive token reaches the shuffle branch of
`playlist_handler`: not all digits, and its first character is `s` rather
than `a` or `r`. -/
def takesShuffle (input_string : String) : Bool :=
  !isdigit (pyStrip input_string) && !startsChar (pyStrip input_string) 'a' &&
    !startsChar (pyStrip input_string) 'r' && startsChar (pyStrip input_string) 's'

/-! ## Concrete fixtures for witnesses and counterexamples -/

/-- Fixture row A. -/
def recA : Record := ⟨"tA", "aA", "lA", 1, 1, "gA", "pA"⟩

/-- Fixture row B. -/
def recB : Record := ⟨"tB", "aB", "lB", 2, 1, "gB", "pB"⟩

/-- Fixture row C. -/
def recC : Record := ⟨"tC", "aC", "lC", 3, 1, "gC", "pC"⟩

/-- Fixture row whose title is `a` and whose other text fields avoid the
letters a, b, c; under the intended any-clause semantics the query
`a,b,c` matches it (its title contains `a`), but the compiled statement
of `search_media` does not. -/
def recBug : Record := ⟨"a", "zz", "zz", 0, 0, "zz", "zz"⟩

/-- Counts of the five category lists; the generated statement text is a
function of these counts alone. -/
def paramCounts (p : Params) : Nat × Nat × Nat × Nat × Nat :=
  (p.genre_params.length, p.artist_params.length, p.album_params.length,
    p.title_params.length, p.multi_params.length)

/-! ## Helper lemmas about `pyJoin` and rendering -/

theorem pyJoin_append (sep : String) {xs ys : List String} (hx : xs ≠ []) (hy : ys ≠ []) :
    pyJoin sep (xs ++ ys) = pyJoin sep xs ++ sep ++ pyJoin sep ys := by
  induction xs with
  | nil => exact absurd rfl hx
  | cons x xs ih =>
    cases xs with
    | nil =>
      cases ys with
      | nil => exact absurd rfl hy
      | cons y ys => simp [pyJoin]
    | cons x2 xs2 =>
      have h2 : (x2 :: xs2 : List String) ≠ [] := by simp
      have ih2 := ih h2
      simp only [List.cons_append] at ih2 ⊢
      simp [pyJoin, ih2, String.append_assoc]

theorem length_flatten_replicate (n : Nat) (xs : List α) :
    (List.replicate n xs).flatten.length = n * xs.length := by
  induction n with
  | zero => simp
  | succ n ih => simp [List.replicate_succ, ih, Nat.succ_mul, Nat.add_comm]

theorem flatten_replicate_ne_nil {xs : List α} (hx : xs ≠ []) {n : Nat} (hn : n ≠ 0) :
    (List.replicate n xs).flatten ≠ [] := by
  cases n with
  | zero => exact absurd rfl hn
  | succ n =>
    intro h
    rw [List.replicate_succ, List.flatten_cons] at h
    exact hx (List.append_eq_nil.mp h).1

theorem pyJoin_flatten_replicate (sep : String) {xs : List String} (hx : xs ≠ []) (n : Nat) :
    pyJoin sep (List.replicate n xs).flatten = pyJoin sep (List.replicate n (pyJoin sep xs)) := by
  induction n with
  | zero => rfl
  | succ n ih =>
    cases n with
    | zero => simp [List.replicate_succ, pyJoin]
    | succ m =>
      rw [List.replicate_succ, List.flatten_cons,
        pyJoin_append sep hx (flatten_replicate_ne_nil hx (Nat.succ_ne_zero m)), ih,
        List.replicate_succ, List.replicate_succ]
      simp [pyJoin]

theorem map_renderLeaf_concreteGroup (c : Col) (ts : List String) :
    (concreteGroup c ts).map renderLeaf = List.replicate ts.length (colName c ++ " like ?") := by
  have h : (renderLeaf ∘ fun t => (⟨c, t⟩ : Leaf)) = fun _ => colName c ++ " like ?" := by
    funext t
    rfl
  simp [concreteGroup, List.map_map, h, List.map_const']

theorem renderGroup_concreteGroup (c : Col) (ts : List String) :
    renderGroup (concreteGroup c ts) = sqlBlock (colName c ++ " like ?") ts.length := by
  simp [renderGroup, sqlBlock, map_renderLeaf_concreteGroup]

theorem map_renderLeaf_multiGroupL (ts : List String) :
    (multiGroupL ts).map renderLeaf =
      (List.replicate ts.length
        ["artist" ++ " like ?", "album" ++ " like ?", "title" ++ " like ?"]).flatten := by
  have hlen : ((List.replicate ts.length multiCols).flatten).length ≤ (ts ++ ts ++ ts).length := by
    simp [length_flatten_replicate, multiCols]
    omega
  calc (multiGroupL ts).map renderLeaf
      = (((List.replicate ts.length multiCols).flatten.zip (ts ++ ts ++ ts)).map Prod.fst).map
          (fun c => colName c ++ " like ?") := by
        simp [multiGroupL, List.map_map, renderLeaf, Function.comp]
    _ = ((List.replicate ts.length multiCols).flatten).map (fun c => colName c ++ " like ?") := by
        rw [List.map_fst_zip _ _ hlen]
    _ = (List.replicate ts.length
          ["artist" ++ " like ?", "album" ++ " like ?", "title" ++ " like ?"]).flatten := by
        simp [List.map_flatten, multiCols, colName]

theorem renderGroup_multiGroupL (ts : List String) :
    renderGroup (multiGroupL ts) =
      sqlBlock "artist like ? or album like ? or title like ?" ts.length := by
  have h3 : (["artist" ++ " like ?", "album" ++ " like ?", "title" ++ " like ?"] :
      List String) ≠ [] := by
    simp
  rw [renderGroup, map_renderLeaf_multiGroupL, pyJoin_flatten_replicate _ h3, sqlBlock]
  have h : pyJoin " or " ["artist" ++ " like ?", "album" ++ " like ?", "title" ++ " like ?"] =
      "artist like ? or album like ? or title like ?" := by decide
  rw [h]

theorem renderLeaf_length (l : Leaf) : (renderLeaf l).length = (colName l.col).length + 7 := by
  have h : (" like ?" : String).length = 7 := by decide
  simp [renderLeaf, h]

theorem colName_length_pos (c : Col) : 0 < (colName c).length := by
  cases c <;> decide

theorem pyJoin_cons_length (sep x : String) (rest : List String) :
    x.length ≤ (pyJoin sep (x :: rest)).length := by
  cases rest with
  | nil => simp [pyJoin]
  | cons y ys =>
    simp [pyJoin]
    omega

theorem renderGroup_length_gt_iff (g : OrGroup) :
    decide (2 < (renderGroup g).length) = !g.isEmpty := by
  cases g with
  | nil => decide
  | cons l g =>
    have h1 : (renderLeaf l).length ≤ (pyJoin " or " (renderLeaf l :: g.map renderLeaf)).length :=
      pyJoin_cons_length _ _ _
    have h2 := colName_length_pos l.col
    have h3 := renderLeaf_length l
    simp only [renderGroup, List.map_cons, List.isEmpty_cons, Bool.not_false, decide_eq_true_eq]
    simp only [String.length_append]
    have h4 : ("(" : String).length = 1 := by decide
    have h5 : (")" : String).length = 1 := by decide
    omega

/-- Fidelity of the structured WHERE clause, statement-text half: wrapping
the rendered AND chain in `pre_sql`/`post_sql` yields exactly the string
`search_media` builds. -/
theorem render_search_sql (p : Params) :
    pre_sql ++ renderPred (compiledPred p) ++ post_sql = search_sql p := by
  have hg : "genre" ++ " like ?" = "genre like ?" := by decide
  have ha : "artist" ++ " like ?" = "artist like ?" := by decide
  have hl : "album" ++ " like ?" = "album like ?" := by decide
  have ht : "title" ++ " like ?" = "title like ?" := by decide
  have hmap : (([concreteGroup Col.genre p.genre_params,
      concreteGroup Col.artist p.artist_params,
      concreteGroup Col.album p.album_params,
      concreteGroup Col.title p.title_params,
      multiGroupL p.multi_params] : Pred).map renderGroup) =
      [genre_sql p, artist_sql p, album_sql p, title_sql p, multi_sql p] := by
    simp only [List.map_cons, List.map_nil, renderGroup_concreteGroup, renderGroup_multiGroupL]
    rw [colName, colName, colName, colName, hg, ha, hl, ht]
    rfl
  have hfil : (compiledPred p).map renderGroup =
      ([genre_sql p, artist_sql p, album_sql p, title_sql p, multi_sql p]).filter
        (fun x => decide (2 < x.length)) := by
    rw [← hmap, compiledPred, List.filter_map]
    apply congrArg
    apply List.filter_congr
    intro g _
    exact (renderGroup_length_gt_iff g).symm
  rw [renderPred, hfil, search_sql]

theorem pats_concreteGroup (c : Col) (ts : List String) :
    (concreteGroup c ts).map (fun l => "%" ++ l.pat ++ "%") =
      ts.map (fun t => "%" ++ t ++ "%") := by
  simp [concreteGroup, List.map_map, Function.comp]

theorem pats_multiGroupL (ts : List String) :
    (multiGroupL ts).map (fun l => "%" ++ l.pat ++ "%") =
      (ts ++ ts ++ ts).map (fun t => "%" ++ t ++ "%") := by
  have hlen : (ts ++ ts ++ ts).length ≤ ((List.replicate ts.length multiCols).flatten).length := by
    simp [length_flatten_replicate, multiCols]
    omega
  calc (multiGroupL ts).map (fun l => "%" ++ l.pat ++ "%")
      = (((List.replicate ts.length multiCols).flatten.zip (ts ++ ts ++ ts)).map Prod.snd).map
          (fun t => "%" ++ t ++ "%") := by
        simp [multiGroupL, List.map_map, Function.comp]
    _ = (ts ++ ts ++ ts).map (fun t => "%" ++ t ++ "%") := by
        rw [List.map_snd_zip _ _ hlen]

/-- Fidelity of the structured WHERE clause, bound-parameter half: the
parameters of the structured form, read left to right, are exactly the
`sql_params` list `search_media` builds. -/
theorem render_sql_params (p : Params) :
    predParams (compiledPred p) = sql_params p := by
  rw [predParams, compiledPred, List.flatten_filter_not_isEmpty]
  simp only [List.flatten_cons, List.flatten_nil, List.append_nil, List.map_append,
    pats_concreteGroup, pats_multiGroupL, sql_params, List.append_assoc]

/-! ## Tokenizer and grouping lemmas -/

theorem startsChar_excl {v : String} {c d : Char} (h : startsChar v c = true) (hcd : c ≠ d) :
    startsChar v d = false := by
  cases hv : v.data with
  | nil => simp [startsChar, hv] at h
  | cons a l =>
    simp [startsChar, hv] at h
    simp [startsChar, hv]
    exact fun hd => hcd (h.symm.trans hd)

theorem foldl_classify (ws : List String) (p : Params) :
    ws.foldl classify p =
      ⟨p.genre_params ++ sigilTexts '!' (ws.map pyStrip),
       p.artist_params ++ sigilTexts '@' (ws.map pyStrip),
       p.album_params ++ sigilTexts '#' (ws.map pyStrip),
       p.title_params ++ sigilTexts '$' (ws.map pyStrip),
       p.multi_params ++ (ws.map pyStrip).filter noSigil⟩ := by
  induction ws generalizing p with
  | nil => simp [sigilTexts]
  | cons w ws ih =>
    rw [List.foldl_cons, ih]
    by_cases h1 : startsChar (pyStrip w) '!' = true
    · have e2 := startsChar_excl h1 (by decide : ('!' : Char) ≠ '@')
      have e3 := startsChar_excl h1 (by decide : ('!' : Char) ≠ '#')
      have e4 := startsChar_excl h1 (by decide : ('!' : Char) ≠ '$')
      simp [classify, h1, sigilTexts, noSigil, e2, e3, e4, List.filter_cons]
    · rw [Bool.not_eq_true] at h1
      by_cases h2 : startsChar (pyStrip w) '@' = true
      · have e3 := startsChar_excl h2 (by decide : ('@' : Char) ≠ '#')
        have e4 := startsChar_excl h2 (by decide : ('@' : Char) ≠ '$')
        simp [classify, h1, h2, sigilTexts, noSigil, e3, e4, List.filter_cons]
      · rw [Bool.not_eq_true] at h2
        by_cases h3 : startsChar (pyStrip w) '#' = true
        · have e4 := startsChar_excl h3 (by decide : ('#' : Char) ≠ '$')
          simp [classify, h1, h2, h3, sigilTexts, noSigil, e4, List.filter_cons]
        · rw [Bool.not_eq_true] at h3
          by_cases h4 : startsChar (pyStrip w) '$' = true
          · simp [classify, h1, h2, h3, h4, sigilTexts, noSigil, List.filter_cons]
          · rw [Bool.not_eq_true] at h4
            simp [classify, h1, h2, h3, h4, sigilTexts, noSigil, List.filter_cons]

theorem foldl_addClause (cs : List Clause) (p : Params) :
    cs.foldl addClause p =
      ⟨p.genre_params ++ fieldTexts QField.genre cs,
       p.artist_params ++ fieldTexts QField.artist cs,
       p.album_params ++ fieldTexts QField.album cs,
       p.title_params ++ fieldTexts QField.title cs,
       p.multi_params ++ fieldTexts QField.anyF cs⟩ := by
  induction cs generalizing p with
  | nil => simp [fieldTexts]
  | cons c cs ih =>
    obtain ⟨f, t⟩ := c
    rw [List.foldl_cons, ih]
    cases f <;> simp [addClause, fieldTexts, List.filter_cons]

theorem toParams_fields (cs : List Clause) :
    toParams cs =
      ⟨fieldTexts QField.genre cs, fieldTexts QField.artist cs, fieldTexts QField.album cs,
       fieldTexts QField.title cs, fieldTexts QField.anyF cs⟩ := by
  rw [toParams, foldl_addClause]
  rfl

/-! ## Matching and selector lemmas -/

theorem subMatch_nil (l : List Char) : subMatch [] l = true := by
  cases l <;> simp [subMatch, leadMatch]

theorem likeMatch_empty (v : String) : likeMatch v "" = true := by
  have h : (pyLower "").data = [] := by decide
  rw [likeMatch, h, subMatch_nil]

theorem perm_cons_eraseIdx (l : List α) (i : Nat) (h : i < l.length) :
    (l.get ⟨i, h⟩ :: l.eraseIdx i).Perm l := by
  induction l generalizing i with
  | nil => exact absurd h (by simp)
  | cons a t ih =>
    cases i with
    | zero => exact List.Perm.refl _
    | succ i =>
      have h2 : i < t.length := by simpa using h
      exact (List.Perm.swap a _ _).trans ((ih i h2).cons a)

theorem shuffleDraws_perm (js : List Nat) (l : List α) : (shuffleDraws js l).Perm l := by
  induction js generalizing l with
  | nil => exact List.Perm.refl _
  | cons j js ih =>
    cases l with
    | nil => exact List.Perm.refl _
    | cons a t =>
      rw [shuffleDraws]
      exact ((ih _).cons _).trans (perm_cons_eraseIdx _ _ _)

theorem shuffleDraws_nil (js : List Nat) : shuffleDraws js ([] : List Record) = [] := by
  cases js <;> rfl

theorem random_choice_nonempty {l : List α} (k : Nat) (h : l ≠ []) :
    random_choice k l = some (l.get ⟨k % l.length, Nat.mod_lt _ (List.length_pos.mpr h)⟩) := by
  rw [random_choice, List.getElem?_eq_getElem (Nat.mod_lt _ (List.length_pos.mpr h))]
  rfl

theorem playlist_handler_entriesAfter (k : Nat) (js : List Nat) (input : String)
    (entries : List Record) :
    (playlist_handler k js input entries).entriesAfter =
      (if takesShuffle input then shuffleDraws js entries else entries) := by
  unfold playlist_handler takesShuffle
  by_cases h1 : isdigit (pyStrip input) = true
  · simp only [h1, if_true, Bool.not_true, Bool.false_and, Bool.and_false, if_false]
    split <;> rfl
  · rw [Bool.not_eq_true] at h1
    by_cases h2 : startsChar (pyStrip input) 'a' = true
    · simp [h1, h2]
    · rw [Bool.not_eq_true] at h2
      by_cases h3 : startsChar (pyStrip input) 'r' = true
      · simp only [h1, h2, h3, Bool.not_false, Bool.not_true, Bool.true_and, Bool.and_false,
          Bool.false_and, if_false, if_true, Bool.false_eq_true]
        cases hrc : random_choice k entries <;> simp [hrc]
      · rw [Bool.not_eq_true] at h3
        by_cases h4 : startsChar (pyStrip input) 's' = true
        · simp [h1, h2, h3, h4]
        · simp [h1, h2, h3, h4]

/-! ## Claim theorems -/

/-- Claim C1 (refuting evaluation): an `any` clause is supposed to compare
its own text against artist, album and title, with no mixing of texts
between clauses.  Because `search_media` binds the multi placeholders to
`multi_params * 3` (the whole list repeated) while the block text cycles
artist, album, title, the compiled group for the three any-clauses
a, b, c is `artist~a OR album~b OR title~c` three times over, not the
per-text triples; the record `recBug`, whose title is `a`, satisfies the
documented predicate but not the compiled one. -/
theorem any_clause_mixed_binding :
    (tokenize "a,b,c").multi_params = ["a", "b", "c"] ∧
    multiGroupL ["a", "b", "c"] ≠ specMultiGroup ["a", "b", "c"] ∧
    search_pred "a,b,c" recBug = false ∧
    evalPred recBug [specMultiGroup ["a", "b", "c"]] = true := by
  refine ⟨by decide, by decide, by decide, by decide⟩

/-- Claim C2 counterexample: for the clause list
`[(album, z), (artist, x)]` the first-seen group order would put the
album group first, but `search_media` ANDs the groups in its fixed
category order, so the artist group comes first. -/
theorem group_order_counterexample :
    compiledPred (toParams [(QField.album, "z"), (QField.artist, "x")]) ≠
      specCompileFirstSeen [(QField.album, "z"), (QField.artist, "x")] ∧
    compiledPred (toParams [(QField.album, "z"), (QField.artist, "x")]) =
      [[⟨Col.artist, "x"⟩], [⟨Col.album, "z"⟩]] ∧
    specCompileFirstSeen [(QField.album, "z"), (QField.artist, "x")] =
      [[⟨Col.album, "z"⟩], [⟨Col.artist, "x"⟩]] := by
  refine ⟨by decide, by decide, by decide⟩

/-- Claim C2 amended: for every clause list the compiled predicate is the
AND of one OR-group per field category, each group holding all of that
field's clause texts in input order, with empty groups omitted — but the
groups appear in the fixed field order genre, artist, album, title, any
(extensionally equivalent, since AND commutes), not in first-seen order;
in particular compiling `[(artist, x), (artist, y), (album, z)]` yields
`(artist~x OR artist~y) AND (album~z)`. -/
theorem compile_fixed_order (cs : List Clause) :
    compiledPred (toParams cs) =
      ([concreteGroup Col.genre (fieldTexts QField.genre cs),
        concreteGroup Col.artist (fieldTexts QField.artist cs),
        concreteGroup Col.album (fieldTexts QField.album cs),
        concreteGroup Col.title (fieldTexts QField.title cs),
        multiGroupL (fieldTexts QField.anyF cs)]).filter (fun g => !g.isEmpty) ∧
    compiledPred (toParams [(QField.artist, "x"), (QField.artist, "y"), (QField.album, "z")]) =
      [[⟨Col.artist, "x"⟩, ⟨Col.artist, "y"⟩], [⟨Col.album, "z"⟩]] := by
  constructor
  · rw [toParams_fields]
    rfl
  · decide

/-- Claim C3 counterexample: segments that are empty after trimming are
not discarded — tokenizing `,,  ,` produces four empty-text any clauses,
and the compiled predicate is not the empty AND chain. -/
theorem empty_segments_not_dropped :
    (tokenize ",,  ,").multi_params = ["", "", "", ""] ∧
    compiledPred (tokenize ",,  ,") ≠ [] := by
  refine ⟨by decide, by decide⟩

/-- Claim C3 amended: segments empty after trimming are kept as any
clauses with empty text, so they do appear in the compiled predicate; but
an empty pattern matches every field value, so the predicate compiled
from `,,  ,` still accepts every record (it is universal extensionally,
not structurally). -/
theorem empty_segments_universal :
    (tokenize ",,  ,").multi_params = ["", "", "", ""] ∧
    ∀ r : Record, search_pred ",,  ," r = true := by
  refine ⟨by decide, fun r => ?_⟩
  have hp : compiledPred (tokenize ",,  ,") = [multiGroupL ["", "", "", ""]] := by decide
  have hmem : (⟨Col.artist, ""⟩ : Leaf) ∈ multiGroupL ["", "", "", ""] := by decide
  rw [search_pred, hp]
  simp only [evalPred, evalGroup, List.all_cons, List.all_nil, Bool.and_true]
  exact List.any_eq_true.mpr ⟨_, hmem, by simp [evalLeaf, getCol, likeMatch_empty]⟩

/-- Claim C4: for every raw query string the tokenizer splits on `,`,
trims each segment, routes each segment by its leading sigil (`!` genre,
`@` artist, `#` album, `$` title, none: any) with the sigil stripped, and
keeps each category in order of appearance — the code's classification
loop equals the tokenizer written from the specification's words. -/
theorem tokenize_routes_by_sigil (s : String) : tokenize s = specTokenize s := by
  rw [tokenize, specTokenize, foldl_classify]
  simp [emptyParams, segsOf]

/-- Claim C5: for every all-digits directive token with value `N`
(1-based), the selector plays `entries.drop (N - 1)` — the chosen track
followed by the rest in existing order — when `1 ≤ N ≤ length`, and
otherwise reports the out-of-range prompt and plays nothing; the caller's
list is untouched and no error escapes. -/
theorem index_directive (input : String) (k : Nat) (js : List Nat) (entries : List Record)
    (h : isdigit (pyStrip input) = true) :
    playlist_handler k js input entries =
      if 1 ≤ parseNat (pyStrip input) ∧ parseNat (pyStrip input) ≤ entries.length then
        ⟨entries.drop (parseNat (pyStrip input) - 1), [], entries, false⟩
      else
        ⟨[], ["Enter value from 1 to " ++ toString entries.length ++ ", try again."],
          entries, false⟩ := by
  unfold playlist_handler
  rw [if_pos h]
  rfl

/-- Claim C5 witness: `select([r1, r2, r3], "2")` plays `[r2, r3]` and
`select([r1, r2, r3], "5")` reports out-of-range and plays nothing. -/
theorem index_directive_witness :
    playlist_handler 0 [] "2" [recA, recB, recC] =
      ⟨[recB, recC], [], [recA, recB, recC], false⟩ ∧
    playlist_handler 0 [] "5" [recA, recB, recC] =
      ⟨[], ["Enter value from 1 to 3, try again."], [recA, recB, recC], false⟩ := by
  constructor
  · exact (index_directive "2" 0 [] [recA, recB, recC] (by decide)).trans (by decide)
  · exact (index_directive "5" 0 [] [recA, recB, recC] (by decide)).trans (by decide)

/-- Claim C6 (refuting evaluation): on the unrecognized directive `x` the
selector initiates no playback and raises no error, but it also prints
nothing — the final branch of `playlist_handler` is the bare string
expression `'Not a valid playlist command, try again.'` with no `print`,
so the error is never reported. -/
theorem unrecognized_directive_silent :
    playlist_handler 0 [] "x" [recA] = ⟨[], [], [recA], false⟩ := by
  decide

/-- Claim C7 counterexample: with directive `r` on the empty result list,
`random.choice([])` raises `IndexError`, which nothing in
`playlist_handler` or the one-shot query path catches — the call is
fatal, refuting the claim for the empty list. -/
theorem random_one_empty_fatal :
    playlist_handler 0 [] "r" [] = ⟨[], [], [], true⟩ := by
  decide

/-- Claim C7 amended: for every nonempty result list, directive `r` plays
exactly one element drawn from the list, prints nothing, leaves the
caller's list untouched and raises no error; on the empty list the call
raises an uncaught `IndexError` instead. -/
theorem random_one_nonempty (k : Nat) (js : List Nat) (entries : List Record)
    (h : entries ≠ []) :
    playlist_handler k js "r" entries =
      ⟨[entries.get ⟨k % entries.length, Nat.mod_lt k (List.length_pos.mpr h)⟩], [],
        entries, false⟩ ∧
    entries.get ⟨k % entries.length, Nat.mod_lt k (List.length_pos.mpr h)⟩ ∈ entries := by
  constructor
  · unfold playlist_handler
    rw [if_neg (by decide), if_neg (by decide), if_pos (by decide),
      random_choice_nonempty k h]
  · exact List.get_mem _ _ _

/-- Claim C7 witness: directive `r` on `[recA, recB]` with draw 1 plays
exactly `[recB]`. -/
theorem random_one_witness :
    playlist_handler 1 [] "r" [recA, recB] = ⟨[recB], [], [recA, recB], false⟩ :=
  ((random_one_nonempty 1 [] [recA, recB] (by decide)).1).trans (by decide)

/-- Claim C8: for every result list and any random draws, directive `s`
plays a permutation of the list (same multiset, length preserved) with
nothing printed and no error, and on the empty list directives `a` and
`s` both yield a no-op empty playback without error. -/
theorem shuffle_plays_permutation (k : Nat) (js : List Nat) (entries : List Record) :
    ((playlist_handler k js "s" entries).played).Perm entries ∧
    (playlist_handler k js "s" entries).messages = [] ∧
    (playlist_handler k js "s" entries).fatal = false ∧
    playlist_handler k js "a" [] = ⟨[], [], [], false⟩ ∧
    playlist_handler k js "s" [] = ⟨[], [], [], false⟩ := by
  have hs : playlist_handler k js "s" entries =
      ⟨shuffleDraws js entries, [], shuffleDraws js entries, false⟩ := by
    unfold playlist_handler
    rw [if_neg (by decide), if_neg (by decide), if_neg (by decide), if_pos (by decide)]
  have ha : playlist_handler k js "a" ([] : List Record) = ⟨[], [], [], false⟩ := by
    unfold playlist_handler
    rw [if_neg (by decide), if_pos (by decide)]
  refine ⟨?_, ?_, ?_, ha, ?_⟩
  · rw [hs]
    exact shuffleDraws_perm js entries
  · rw [hs]
  · rw [hs]
  · have hs2 : playlist_handler k js "s" ([] : List Record) =
        ⟨shuffleDraws js [], [], shuffleDraws js [], false⟩ := by
      unfold playlist_handler
      rw [if_neg (by decide), if_neg (by decide), if_neg (by decide), if_pos (by decide)]
    rw [hs2, shuffleDraws_nil]

/-- Claim C9 counterexample: `random.shuffle` works in place, so after
directive `s` the caller's result list is reordered — with records
`[recA, recB]` and a draw picking the second element first, the caller's
list afterwards is `[recB, recA]`, not the original. -/
theorem shuffle_mutates_caller_list :
    (playlist_handler 0 [1] "s" [recA, recB]).entriesAfter ≠ [recA, recB] := by
  decide

/-- Claim C9 amended: the selector leaves the caller's result list
unmodified for every directive except shuffle-all, which reorders the
list in place (always to a permutation of the original); and
`select(results, "all")` returns exactly `results` with no reordering. -/
theorem selector_mutation (k : Nat) (js : List Nat) (input : String) (entries : List Record) :
    (takesShuffle input = false →
      (playlist_handler k js input entries).entriesAfter = entries) ∧
    (takesShuffle input = true →
      (playlist_handler k js input entries).entriesAfter = shuffleDraws js entries) ∧
    ((playlist_handler k js input entries).entriesAfter).Perm entries ∧
    (playlist_handler k js "a" entries).played = entries := by
  have ha : (playlist_handler k js "a" entries).played = entries := by
    unfold playlist_handler
    rw [if_neg (by decide), if_pos (by decide)]
  refine ⟨?_, ?_, ?_, ha⟩
  · intro h
    rw [playlist_handler_entriesAfter, h]
    rfl
  · intro h
    rw [playlist_handler_entriesAfter, h]
    rfl
  · rw [playlist_handler_entriesAfter]
    split
    · exact shuffleDraws_perm js entries
    · exact List.Perm.refl _

/-- Claim C9 witness: the non-shuffle directive `all` leaves the caller's
list `[recA, recB]` unchanged, and directive `a` plays exactly it. -/
theorem selector_mutation_witness :
    (playlist_handler 0 [] "all" [recA, recB]).entriesAfter = [recA, recB] ∧
    (playlist_handler 0 [] "a" [recA, recB]).played = [recA, recB] :=
  ⟨(selector_mutation 0 [] "all" [recA, recB]).1 (by decide),
    (selector_mutation 0 [] "a" [recA, recB]).2.2.2⟩

/-- Claim C10: the statement text built by `search_media` depends only on
the per-category clause counts — two queries whose five category lists
have equal lengths produce identical SQL text — and the clause texts flow
only into the bound-parameter list, each wrapped in `%...%`. -/
theorem sql_text_depends_only_on_counts (q1 q2 : String)
    (h : paramCounts (tokenize q1) = paramCounts (tokenize q2)) :
    search_sql (tokenize q1) = search_sql (tokenize q2) ∧
    sql_params (tokenize q1) =
      ((tokenize q1).genre_params ++ (tokenize q1).artist_params ++
        (tokenize q1).album_params ++ (tokenize q1).title_params ++
        ((tokenize q1).multi_params ++ (tokenize q1).multi_params ++
          (tokenize q1).multi_params)).map (fun t => "%" ++ t ++ "%") := by
  constructor
  · simp only [paramCounts, Prod.mk.injEq] at h
    obtain ⟨h1, h2, h3, h4, h5⟩ := h
    unfold search_sql genre_sql artist_sql album_sql title_sql multi_sql
    rw [h1, h2, h3, h4, h5]
  · rfl

/-- Claim C10 witness: the queries `@x,#y` and `@aa,#bbb` have equal
category counts and produce the same statement text. -/
theorem sql_text_counts_witness :
    paramCounts (tokenize "@x,#y") = paramCounts (tokenize "@aa,#bbb") ∧
    search_sql (tokenize "@x,#y") = search_sql (tokenize "@aa,#bbb") :=
  ⟨by decide, (sql_text_depends_only_on_counts "@x,#y" "@aa,#bbb" (by decide)).1⟩
